import Mathlib

/-!
Shallow embedding of the my-paytm backend (backend/routes/account.js,
backend/routes/user.js, backend/db.js) in Lean 4, together with proofs of
the specified properties of the transfer engine, the account store and the
transaction log.

Modelling conventions:
- JavaScript numbers that hold monetary amounts are modelled as exact
  rationals (Rat); the claims about the numeric *representation* used by
  the store are handled separately through an explicit model of the
  mongoose schema declaration (see BsonNumericType below).
- The MongoDB session of the transfer route (startTransaction /
  commitTransaction / abortTransaction) is modelled by having the transfer
  function return the post-state explicitly: an aborted session returns
  the pre-state unchanged, a committed session returns the mutated state.
  The `commitOk` argument models whether the final commit succeeds; the
  catch-all handler of the route aborts the session, which is rollback.
- Mongoose findOne / updateOne use first-match semantics on the accounts
  collection; the embedding mirrors that on an association list.
-/

/-- Balances and amounts carried by requests: exact rational arithmetic. -/
abbrev Money := Rat

/-- Status enum of transactionSchema in backend/db.js:
`enum: [pending, completed, failed]`. -/
inductive TxStatus
  | pending
  | completed
  | failed
deriving DecidableEq, Repr

/-- A document of the Transaction collection (transactionSchema in
backend/db.js): fromUserId, toUserId, amount, status, description, and the
createdAt timestamp added by `timestamps: true`. -/
structure Txn where
  fromUserId : String
  toUserId : String
  amount : Money
  description : String
  status : TxStatus
  createdAt : Nat
deriving DecidableEq, Repr

/-- The persistent state of the backend: the Account collection
(userId and balance per accountSchema), the set of User document ids
(all that the transfer route consults of the User collection), and the
Transaction collection. Accounts are an association list userId to
balance, with mongoose first-match semantics for findOne / updateOne. -/
structure BankState where
  accounts : List (String × Money)
  userIds : List String
  txns : List Txn
deriving DecidableEq, Repr

/-- Mongoose `Account.findOne({ userId })`: first entry with the given userId. -/
def findAccount : List (String × Money) → String → Option Money
  | [], _ => none
  | (u, b) :: rest, uid => if u = uid then some b else findAccount rest uid

/-- Mongoose `Account.updateOne({ userId }, { $inc: { balance: delta } })`: add
delta to the balance of the first entry with the given userId; a filter
that matches nothing updates nothing. -/
def incBalance : List (String × Money) → String → Money → List (String × Money)
  | [], _, _ => []
  | (u, b) :: rest, uid, d =>
      if u = uid then (u, b + d) :: rest else (u, b) :: incBalance rest uid d

/-- The zod transferBody schema of backend/routes/account.js:
`to: string().min(1)`, `amount: number().positive().max(100000)`,
`description: string().max(200).optional()`. -/
def transferBodyValid (toId : String) (amount : Money) (description : Option String) : Bool :=
  decide (1 ≤ toId.length) && decide (0 < amount) && decide (amount ≤ 100000) &&
    (match description with
      | none => true
      | some s => decide (s.length ≤ 200))

/-- The error outcomes of POST /account/transfer, one per distinct failure
response of the route. -/
inductive TransferError
  | InvalidRequest
  | SelfTransfer
  | SenderAccountNotFound
  | InsufficientFunds
  | RecipientAccountNotFound
  | RecipientUserNotFound
  | TransferFailed
deriving DecidableEq, Repr

/-- The AccountNotFound class of the error taxonomy: the three 404
responses of the transfer route (missing sender account, missing recipient
account, missing recipient user). -/
def TransferError.isAccountNotFound : TransferError → Bool
  | .SenderAccountNotFound => true
  | .RecipientAccountNotFound => true
  | .RecipientUserNotFound => true
  | _ => false

/-- Outcome of one call to the transfer route. -/
inductive TransferResult
  | success (txn : Txn)
  | failure (e : TransferError)
deriving DecidableEq, Repr

/-- POST /account/transfer of backend/routes/account.js, in the exact
order of the source: zod validation, self-transfer check, sender account
lookup, balance check, recipient account lookup, recipient user lookup,
debit, credit, transaction insert, commit. `reqUserId` is the
authenticated caller, `now` the timestamp mongoose assigns to the new
transaction document, `commitOk` whether commitTransaction succeeds
(otherwise the catch block aborts the session and answers 500
Transfer failed). Every failure path returns the pre-state: the session
is aborted before commit, or no write was ever issued. -/
def transfer (st : BankState) (reqUserId toId : String) (amount : Money)
    (description : Option String) (now : Nat) (commitOk : Bool) :
    TransferResult × BankState :=
  if ¬ transferBodyValid toId amount description then
    (.failure .InvalidRequest, st)
  else if toId = reqUserId then
    (.failure .SelfTransfer, st)
  else
    match findAccount st.accounts reqUserId with
    | none => (.failure .SenderAccountNotFound, st)
    | some senderBal =>
      if senderBal < amount then
        (.failure .InsufficientFunds, st)
      else
        match findAccount st.accounts toId with
        | none => (.failure .RecipientAccountNotFound, st)
        | some _ =>
          if ¬ st.userIds.contains toId then
            (.failure .RecipientUserNotFound, st)
          else
            let txn : Txn :=
              { fromUserId := reqUserId, toUserId := toId, amount := amount,
                description := description.getD "", status := .completed,
                createdAt := now }
            let accounts' :=
              incBalance (incBalance st.accounts reqUserId (-amount)) toId amount
            if commitOk then
              (.success txn, { st with accounts := accounts', txns := st.txns ++ [txn] })
            else
              (.failure .TransferFailed, st)

/-- The `parseFloat(balance.toFixed(2))` of the balance route: the stored
value rounded to two decimal places. -/
def round2 (q : Money) : Money := (round (q * 100) : ℤ) / 100

/-- GET /account/balance of backend/routes/account.js: look the account
up, answer 404 (none) when it is missing, otherwise the balance rounded to
two decimals. The route performs no write, so it returns the state it was
given. -/
def getBalanceOp (st : BankState) (reqUserId : String) : Option Money × BankState :=
  ((findAccount st.accounts reqUserId).map round2, st)

/-- The participant filter of GET /user/transactions and
GET /account/statement: `$or: [ { fromUserId }, { toUserId } ]`. -/
def txInvolves (reqUserId : String) (t : Txn) : Bool :=
  decide (t.fromUserId = reqUserId) || decide (t.toUserId = reqUserId)

/-- Mongo `.sort({ createdAt: -1 })`: newest first. -/
def newestFirst (l : List Txn) : List Txn :=
  l.mergeSort fun a b => decide (b.createdAt ≤ a.createdAt)

/-- The full match set of the transaction-history query for one account,
newest first: `Transaction.find({ $or: [...] }).sort({ createdAt: -1 })`. -/
def sortedHistory (st : BankState) (reqUserId : String) : List Txn :=
  newestFirst (st.txns.filter (txInvolves reqUserId))

/-- GET /account/statement of backend/routes/account.js: the most recent
`limit` matching transactions plus the current balance (0 when the account
is missing). Read-only, so the state comes back unchanged. -/
def statementOp (st : BankState) (reqUserId : String) (limit : Nat) :
    (Money × List Txn) × BankState :=
  ((((findAccount st.accounts reqUserId).map round2).getD 0,
    (sortedHistory st reqUserId).take limit), st)

/-- The response shape of GET /user/transactions: the page of records plus
the pagination block `page, limit, total, pages`. -/
structure TxHistoryPage where
  transactions : List Txn
  page : Nat
  limit : Nat
  total : Nat
  pages : Nat
deriving DecidableEq, Repr

/-- GET /user/transactions of backend/routes/user.js:
`skip = (page - 1) * limit`, find matching records sorted newest first,
skip `skip` of them and take `limit`; `total` is countDocuments of the
same filter and `pages` is `Math.ceil(total / limit)`. Read-only. -/
def getTransactions (st : BankState) (reqUserId : String) (page limit : Nat) :
    TxHistoryPage :=
  let skip := (page - 1) * limit
  let total := (st.txns.filter (txInvolves reqUserId)).length
  { transactions := ((sortedHistory st reqUserId).drop skip).take limit
    page := page
    limit := limit
    total := total
    pages := ⌈(total : ℚ) / (limit : ℚ)⌉₊ }

/-- The initial balance seeded at signup in backend/routes/user.js:
`1000 + Math.random() * 9000`, where `r` stands for the value the
`Math.random()` call returned (a draw from [0,1)). -/
def initialBalance (r : Money) : Money := 1000 + r * 9000

/-- The creation path of POST /user/signup in backend/routes/user.js:
`User.create` followed by `Account.create` with the random initial
balance. `newUserId` is the fresh `user._id`. The failure paths of the
route (zod validation, duplicate username) return before either create
and leave the state unchanged, so only the creating path mutates state. -/
def signup (st : BankState) (newUserId : String) (r : Money) : BankState :=
  { st with
    accounts := st.accounts ++ [(newUserId, initialBalance r)]
    userIds := st.userIds ++ [newUserId] }

/-- The invariant that every stored balance is non-negative. -/
def allNonneg (accs : List (String × Money)) : Bool :=
  accs.all fun p => decide (0 ≤ p.2)

/-- The invariant that every record of the transaction log has status
completed. -/
def allCompleted (txns : List Txn) : Bool :=
  txns.all fun t => decide (t.status = .completed)

/-- The numeric storage types a mongoose schema field can declare for
monetary data: `Number` (the JavaScript number type, an IEEE-754 binary64
float), `mongoose.Schema.Types.Decimal128` (fixed-point decimal), or a
BSON integer holding minor units. -/
inductive BsonNumericType
  | binaryDouble
  | decimal128
  | integerMinorUnits
deriving DecidableEq, Repr

/-- The declared type of the balance field of accountSchema in
backend/db.js: `balance: { type: Number, required: true, default: 0 }` —
the JavaScript Number type, an IEEE-754 binary double. -/
def accountSchemaBalanceType : BsonNumericType := .binaryDouble

/-- Whether a declared storage type is integer minor-units or fixed-point
decimal, as opposed to a binary float. -/
def BsonNumericType.isExactMonetary : BsonNumericType → Bool
  | .binaryDouble => false
  | .decimal128 => true
  | .integerMinorUnits => true

/-- A sample store used by concrete witnesses: two users with accounts. -/
def demoState : BankState :=
  { accounts := [("alice", 1000), ("bob", 500)]
    userIds := ["alice", "bob"]
    txns := [] }

/-- A one-account store used to exhibit the order of the balance check and
the recipient lookup. -/
def poorState : BankState :=
  { accounts := [("alice", 10)], userIds := ["alice"], txns := [] }

/-- A store with one funded account, for the missing-recipient runs. -/
def richSoloState : BankState :=
  { accounts := [("alice", 1000)], userIds := ["alice"], txns := [] }

/-- Three log records used by the pagination witness runs. -/
def txA : Txn :=
  { fromUserId := "alice", toUserId := "bob", amount := 10, description := "",
    status := .completed, createdAt := 1 }

/-- See txA. -/
def txB : Txn :=
  { fromUserId := "bob", toUserId := "alice", amount := 20, description := "",
    status := .completed, createdAt := 2 }

/-- See txA. -/
def txC : Txn :=
  { fromUserId := "bob", toUserId := "carol", amount := 30, description := "",
    status := .completed, createdAt := 3 }

/-- A store whose log holds txA, txB and txC, for the pagination runs. -/
def txState : BankState :=
  { accounts := [("alice", 1000), ("bob", 500), ("carol", 200)]
    userIds := ["alice", "bob", "carol"]
    txns := [txA, txB, txC] }

example :
    (transfer { accounts := [("alice", 10)], userIds := ["alice"], txns := [] }
      "alice" "bob" 50 none 0 true).1 = .failure .InsufficientFunds := by decide

example :
    (transfer demoState "alice" "bob" 300 none 7 true) =
      (.success { fromUserId := "alice", toUserId := "bob", amount := 300,
                  description := "", status := .completed, createdAt := 7 },
        { accounts := [("alice", 700), ("bob", 800)]
          userIds := ["alice", "bob"]
          txns := [{ fromUserId := "alice", toUserId := "bob", amount := 300,
                     description := "", status := .completed, createdAt := 7 }] }) := by
  norm_num [transfer, transferBodyValid, findAccount, incBalance, demoState]
  decide

example : (getTransactions demoState "alice" 1 10).pages = 0 := by
  norm_num [getTransactions, sortedHistory, demoState, newestFirst]

/-! ## Lemmas about the account store -/

theorem findAccount_incBalance_self (accs : List (String × Money)) (u : String) (d : Money) :
    findAccount (incBalance accs u d) u = (findAccount accs u).map (· + d) := by
  induction accs with
  | nil => rfl
  | cons p rest ih =>
    obtain ⟨v, b⟩ := p
    by_cases h : v = u <;> simp [findAccount, incBalance, h, ih]

theorem findAccount_incBalance_ne (accs : List (String × Money)) (u v : String) (d : Money)
    (h : u ≠ v) :
    findAccount (incBalance accs v d) u = findAccount accs u := by
  induction accs with
  | nil => rfl
  | cons p rest ih =>
    obtain ⟨w, b⟩ := p
    by_cases hw : w = v
    · subst hw
      simp [findAccount, incBalance, Ne.symm h]
    · by_cases hu : w = u <;> simp [findAccount, incBalance, hw, hu, h, ih]

theorem findAccount_mem (accs : List (String × Money)) (u : String) (b : Money)
    (h : findAccount accs u = some b) : (u, b) ∈ accs := by
  induction accs with
  | nil => simp [findAccount] at h
  | cons p rest ih =>
    obtain ⟨v, c⟩ := p
    by_cases hv : v = u
    · subst hv
      simp [findAccount] at h
      simp [h]
    · simp [findAccount, hv] at h
      exact List.mem_cons_of_mem _ (ih h)

theorem mem_incBalance (accs : List (String × Money)) (u : String) (d : Money) (p : String × Money)
    (hp : p ∈ incBalance accs u d) :
    p ∈ accs ∨ ∃ b, findAccount accs u = some b ∧ p = (u, b + d) := by
  induction accs with
  | nil => simp [incBalance] at hp
  | cons q rest ih =>
    obtain ⟨v, c⟩ := q
    by_cases hv : v = u
    · subst hv
      simp [incBalance] at hp
      rcases hp with hp | hp
      · exact Or.inr ⟨c, by simp [findAccount], by simp [hp]⟩
      · exact Or.inl (List.mem_cons_of_mem _ hp)
    · simp [incBalance, hv] at hp
      rcases hp with hp | hp
      · exact Or.inl (by simp [hp])
      · rcases ih hp with h | ⟨b, hb, hpb⟩
        · exact Or.inl (List.mem_cons_of_mem _ h)
        · exact Or.inr ⟨b, by simp [findAccount, hv, hb], hpb⟩

theorem allNonneg_iff (accs : List (String × Money)) :
    allNonneg accs = true ↔ ∀ p ∈ accs, 0 ≤ p.2 := by
  simp [allNonneg]

theorem allCompleted_iff (txns : List Txn) :
    allCompleted txns = true ↔ ∀ t ∈ txns, t.status = .completed := by
  simp [allCompleted]

theorem transferBodyValid_iff (toId : String) (amount : Money) (description : Option String) :
    transferBodyValid toId amount description = true ↔
      1 ≤ toId.length ∧ 0 < amount ∧ amount ≤ 100000 ∧
        ∀ s, description = some s → s.length ≤ 200 := by
  cases description <;> simp [transferBodyValid, and_assoc]

/-! ## Case analysis of the transfer route -/

/-- A call that returns a failure aborted or never started its session:
the state it hands back is the state it received. -/
theorem transfer_failure_state {st : BankState} {f t : String} {a : Money}
    {d : Option String} {now : Nat} {ok : Bool} {e : TransferError} {st' : BankState}
    (h : transfer st f t a d now ok = (.failure e, st')) : st' = st := by
  unfold transfer at h
  split at h
  · exact (Prod.mk.injEq .. ▸ h).2.symm
  · split at h
    · exact (Prod.mk.injEq .. ▸ h).2.symm
    · split at h
      · exact (Prod.mk.injEq .. ▸ h).2.symm
      · split at h
        · exact (Prod.mk.injEq .. ▸ h).2.symm
        · split at h
          · exact (Prod.mk.injEq .. ▸ h).2.symm
          · split at h
            · exact (Prod.mk.injEq .. ▸ h).2.symm
            · split at h
              · simp at h
              · exact (Prod.mk.injEq .. ▸ h).2.symm

/-- Everything a successful call certifies: the request was valid, not a
self transfer, both accounts and the recipient user existed, the balance
covered the amount, the commit went through, and the returned state is the
pre-state with the debit, the credit and the appended completed record. -/
theorem transfer_success_elim {st : BankState} {f t : String} {a : Money}
    {d : Option String} {now : Nat} {ok : Bool} {txn : Txn} {st' : BankState}
    (h : transfer st f t a d now ok = (.success txn, st')) :
    transferBodyValid t a d = true ∧ t ≠ f ∧ ok = true ∧
    ∃ bf bt, findAccount st.accounts f = some bf ∧ ¬ bf < a ∧
      findAccount st.accounts t = some bt ∧ st.userIds.contains t = true ∧
      txn = { fromUserId := f, toUserId := t, amount := a, description := d.getD "",
              status := .completed, createdAt := now } ∧
      st' = { st with accounts := incBalance (incBalance st.accounts f (-a)) t a,
                      txns := st.txns ++ [txn] } := by
  by_cases hv : transferBodyValid t a d = true
  swap
  · exact absurd h (by simp [transfer, hv])
  by_cases hself : t = f
  · have hv' : transferBodyValid f a d = true := hself ▸ hv
    exact absurd h (by simp [transfer, hself, hv'])
  rcases hbf : findAccount st.accounts f with _ | bf
  · exact absurd h (by simp [transfer, hv, hself, hbf])
  by_cases hlt : bf < a
  · exact absurd h (by simp [transfer, hv, hself, hbf, hlt])
  rcases hbt : findAccount st.accounts t with _ | bt
  · exact absurd h (by simp [transfer, hv, hself, hbf, hlt, hbt])
  by_cases huser : t ∈ st.userIds
  swap
  · exact absurd h (by simp [transfer, hv, hself, hbf, hlt, hbt, huser])
  rcases hok : ok with _ | _
  · exact absurd (hok ▸ h) (by simp [transfer, hv, hself, hbf, hlt, hbt, huser])
  have hcomp : transfer st f t a d now ok =
      (.success { fromUserId := f, toUserId := t, amount := a, description := d.getD "",
                  status := .completed, createdAt := now },
        { st with accounts := incBalance (incBalance st.accounts f (-a)) t a,
                  txns := st.txns ++
                    [{ fromUserId := f, toUserId := t, amount := a, description := d.getD "",
                       status := .completed, createdAt := now }] }) := by
    simp [transfer, hv, hself, hbf, hlt, hbt, huser, hok]
  rw [hcomp] at h
  injection h with h1 h2
  injection h1 with h1
  refine ⟨hv, hself, rfl, bf, bt, rfl, hlt, rfl, by simpa using huser, h1.symm, ?_⟩
  rw [← h2, ← h1]

/-! ## Claim theorems -/

/-- Claim C1: for every successful transfer of amount a from account F to
account T, the balance of F decreases by exactly a, the balance of T
increases by exactly a, and so the sum of the two balances after the
transfer equals the sum before it. -/
theorem transfer_conservation
    (st : BankState) (f t : String) (a : Money) (d : Option String) (now : Nat) (ok : Bool)
    (txn : Txn) (st' : BankState) (bf bt : Money)
    (h : transfer st f t a d now ok = (.success txn, st'))
    (hbf : findAccount st.accounts f = some bf)
    (hbt : findAccount st.accounts t = some bt) :
    findAccount st'.accounts f = some (bf - a) ∧
    findAccount st'.accounts t = some (bt + a) ∧
    (bf - a) + (bt + a) = bf + bt := by
  obtain ⟨hv, hne, hok, bf', bt', hbf', hlt', hbt', hu, htxn, hst⟩ := transfer_success_elim h
  have hfa : f ≠ t := fun he => hne he.symm
  refine ⟨?_, ?_, by ring⟩
  · rw [hst]
    show findAccount (incBalance (incBalance st.accounts f (-a)) t a) f = some (bf - a)
    rw [findAccount_incBalance_ne _ f t a hfa, findAccount_incBalance_self, hbf]
    simp [sub_eq_add_neg]
  · rw [hst]
    show findAccount (incBalance (incBalance st.accounts f (-a)) t a) t = some (bt + a)
    rw [findAccount_incBalance_self, findAccount_incBalance_ne _ t f (-a) hne, hbt]
    simp

/-- Concrete run of transfer_conservation: on demoState, alice sends 300
of her 1000 to bob who holds 500. -/
theorem transfer_conservation_witness :
    findAccount [("alice", (700 : Money)), ("bob", 800)] "alice" = some (1000 - 300) ∧
    findAccount [("alice", (700 : Money)), ("bob", 800)] "bob" = some (500 + 300) ∧
    ((1000 : Money) - 300) + (500 + 300) = 1000 + 500 :=
  transfer_conservation demoState "alice" "bob" 300 none 7 true
    { fromUserId := "alice", toUserId := "bob", amount := 300, description := "",
      status := .completed, createdAt := 7 }
    { accounts := [("alice", 700), ("bob", 800)], userIds := ["alice", "bob"],
      txns := [{ fromUserId := "alice", toUserId := "bob", amount := 300,
                 description := "", status := .completed, createdAt := 7 }] }
    1000 500
    (by
      norm_num [transfer, transferBodyValid, findAccount, incBalance, demoState]
      all_goals decide)
    (by decide) (by decide)

/-- Claim C3: every failing transfer call, whatever the error, hands back
exactly the state it received: both balances as before the call, and no
transaction record created. -/
theorem transfer_failure_atomicity
    (st : BankState) (f t : String) (a : Money) (d : Option String) (now : Nat) (ok : Bool)
    (e : TransferError) (st' : BankState)
    (h : transfer st f t a d now ok = (.failure e, st')) :
    st' = st ∧ st'.accounts = st.accounts ∧ st'.txns = st.txns := by
  have heq := transfer_failure_state h
  exact ⟨heq, by rw [heq], by rw [heq]⟩

/-- Concrete run of transfer_failure_atomicity: the self transfer of 100
by alice fails and demoState is returned untouched. -/
theorem transfer_failure_atomicity_witness :
    demoState = demoState ∧ demoState.accounts = demoState.accounts ∧
      demoState.txns = demoState.txns :=
  transfer_failure_atomicity demoState "alice" "alice" 100 none 0 true .SelfTransfer demoState
    (by decide)

/-- Claim C4 counterexample: with sender balance 10, a validated transfer
of 50 to the absent account bob is answered InsufficientFunds, not any of
the AccountNotFound responses: the route checks the sender balance before
it ever looks the recipient up. -/
theorem transfer_missing_recipient_counterexample :
    transferBodyValid "bob" 50 none = true ∧
    findAccount poorState.accounts "bob" = none ∧
    (transfer poorState "alice" "bob" 50 none 0 true).1 = .failure .InsufficientFunds ∧
    TransferError.InsufficientFunds.isAccountNotFound = false :=
  ⟨by decide, by decide, by decide, by decide⟩

/-- Claim C4 amended: a validated transfer to a missing recipient account
fails with the recipient-not-found variant of AccountNotFound and leaves
the state unchanged, provided the sender account exists and its balance
covers the amount (the balance check precedes the recipient lookup, so
with insufficient sender funds the same request reports
InsufficientFunds instead). -/
theorem transfer_missing_recipient_amended
    (st : BankState) (f t : String) (a : Money) (d : Option String) (now : Nat) (ok : Bool)
    (bf : Money)
    (hv : transferBodyValid t a d = true) (hne : t ≠ f)
    (hbf : findAccount st.accounts f = some bf) (hle : a ≤ bf)
    (ht : findAccount st.accounts t = none) :
    (transfer st f t a d now ok).1 = .failure .RecipientAccountNotFound ∧
    TransferError.RecipientAccountNotFound.isAccountNotFound = true ∧
    (transfer st f t a d now ok).2 = st := by
  have hlt : ¬ bf < a := not_lt.mpr hle
  refine ⟨?_, rfl, ?_⟩ <;> simp [transfer, hv, hne, hbf, hlt, ht]

/-- Concrete run of transfer_missing_recipient_amended: alice holds 1000
and sends 300 to the absent account ghost. -/
theorem transfer_missing_recipient_amended_witness :
    (transfer richSoloState "alice" "ghost" 300 none 0 true).1 =
      .failure .RecipientAccountNotFound ∧
    TransferError.RecipientAccountNotFound.isAccountNotFound = true ∧
    (transfer richSoloState "alice" "ghost" 300 none 0 true).2 = richSoloState :=
  transfer_missing_recipient_amended richSoloState "alice" "ghost" 300 none 0 true 1000
    (by decide) (by decide) (by decide) (by decide) (by decide)

/-- Claim C5: a transfer request whose amount is not positive, or is above
the 100000 ceiling, or whose description is longer than 200 characters, is
answered InvalidRequest by the zod validation, which runs before the
session is opened and before any account is read: the state comes back
untouched and no record is written. -/
theorem transfer_invalid_request
    (st : BankState) (f t : String) (a : Money) (d : Option String) (now : Nat) (ok : Bool)
    (hbad : a ≤ 0 ∨ 100000 < a ∨ ∃ s, d = some s ∧ 200 < s.length) :
    (transfer st f t a d now ok).1 = .failure .InvalidRequest ∧
    (transfer st f t a d now ok).2 = st := by
  have hv : ¬ transferBodyValid t a d = true := by
    rw [transferBodyValid_iff]
    rintro ⟨-, hpos, hle, hdesc⟩
    rcases hbad with hb | hb | ⟨s, hds, hs⟩
    · exact absurd hpos (not_lt.mpr hb)
    · exact absurd hle (not_le.mpr hb)
    · exact absurd (hdesc s hds) (not_le.mpr hs)
  constructor <;> simp [transfer, hv]

/-- Concrete run of transfer_invalid_request: amount 0 is rejected before
anything is read or written. -/
theorem transfer_invalid_request_witness :
    (transfer demoState "alice" "bob" 0 none 0 true).1 = .failure .InvalidRequest ∧
    (transfer demoState "alice" "bob" 0 none 0 true).2 = demoState :=
  transfer_invalid_request demoState "alice" "bob" 0 none 0 true (Or.inl (by norm_num))

/-- Claim C6 counterexample: a self transfer whose amount fails validation
(amount 0 from alice to alice) is answered InvalidRequest, not
SelfTransfer: the zod validation runs before the self-transfer check, so
the claim does not hold for every amount. -/
theorem transfer_self_counterexample :
    (transfer demoState "alice" "alice" 0 none 0 true).1 = .failure .InvalidRequest ∧
    TransferError.InvalidRequest ≠ TransferError.SelfTransfer :=
  ⟨by decide, by decide⟩

/-- Claim C6 amended: every self transfer that passes input validation
fails with SelfTransfer and leaves the state unchanged (so no record is
written and no balance moves), for every validated amount, including
amounts the sender could afford. -/
theorem transfer_self_amended
    (st : BankState) (f : String) (a : Money) (d : Option String) (now : Nat) (ok : Bool)
    (hv : transferBodyValid f a d = true) :
    (transfer st f f a d now ok).1 = .failure .SelfTransfer ∧
    (transfer st f f a d now ok).2 = st := by
  constructor <;> simp [transfer, hv]

/-- Concrete run of transfer_self_amended: alice holds 1000 and could
afford the amount 100, yet the self transfer fails with SelfTransfer. -/
theorem transfer_self_amended_witness :
    (transfer demoState "alice" "alice" 100 none 0 true).1 = .failure .SelfTransfer ∧
    (transfer demoState "alice" "alice" 100 none 0 true).2 = demoState :=
  transfer_self_amended demoState "alice" 100 none 0 true (by decide)

/-- Adding a delta keeps every balance non-negative as long as the touched
account stays non-negative. -/
theorem allNonneg_incBalance (accs : List (String × Money)) (u : String) (d : Money)
    (hall : allNonneg accs = true)
    (hnew : ∀ b, findAccount accs u = some b → 0 ≤ b + d) :
    allNonneg (incBalance accs u d) = true := by
  rw [allNonneg_iff] at hall ⊢
  intro p hp
  rcases mem_incBalance accs u d p hp with h | ⟨b, hb, rfl⟩
  · exact hall p h
  · exact hnew b hb

/-- Claim C2: from a state in which every balance is non-negative, every
operation preserves the invariant: transfer keeps all balances
non-negative, balance lookup and statement are read-only, and the account
created at signup starts non-negative; moreover a transfer whose amount
exceeds the sender balance (after passing the earlier checks) is rejected
with InsufficientFunds and the state, hence the sender balance, is
untouched. -/
theorem nonneg_invariant
    (st : BankState) (f t : String) (a : Money) (d : Option String) (now : Nat) (ok : Bool)
    (uid : String) (r : Money) (lim : Nat)
    (hinv : allNonneg st.accounts = true) :
    allNonneg (transfer st f t a d now ok).2.accounts = true ∧
    (getBalanceOp st uid).2 = st ∧
    (statementOp st uid lim).2 = st ∧
    (0 ≤ r → allNonneg (signup st uid r).accounts = true) ∧
    (∀ bf, transferBodyValid t a d = true → t ≠ f →
      findAccount st.accounts f = some bf → bf < a →
      transfer st f t a d now ok = (.failure .InsufficientFunds, st)) := by
  refine ⟨?_, rfl, rfl, ?_, ?_⟩
  · rcases hres : transfer st f t a d now ok with ⟨res, st'⟩
    cases res with
    | failure e =>
      rw [transfer_failure_state hres]
      exact hinv
    | success txn =>
      obtain ⟨hv, hne, -, bf, bt, hbf, hlt, hbt, -, -, hst⟩ := transfer_success_elim hres
      have hpos : 0 < a := ((transferBodyValid_iff t a d).mp hv).2.1
      rw [hst]
      show allNonneg (incBalance (incBalance st.accounts f (-a)) t a) = true
      have h1 : allNonneg (incBalance st.accounts f (-a)) = true := by
        refine allNonneg_incBalance _ _ _ hinv ?_
        intro b hb
        rw [hbf] at hb
        injection hb with hb
        subst hb
        have := not_lt.mp hlt
        linarith
      refine allNonneg_incBalance _ _ _ h1 ?_
      intro b hb
      rw [findAccount_incBalance_ne _ t f (-a) hne, hbt] at hb
      injection hb with hb
      subst hb
      have hbt0 : 0 ≤ bt := (allNonneg_iff _).mp hinv _ (findAccount_mem _ _ _ hbt)
      linarith
  · intro hr
    rw [allNonneg_iff]
    intro p hp
    rcases List.mem_append.mp hp with h | h
    · exact (allNonneg_iff _).mp hinv p h
    · rcases List.mem_singleton.mp h with rfl
      show (0 : Money) ≤ initialBalance r
      unfold initialBalance
      nlinarith
  · intro bf hv hne hbf hlt
    simp [transfer, hv, hne, hbf, hlt]

/-- Concrete run of nonneg_invariant on demoState: alice holds 1000 and
asks to send 2000 to bob; the balances stay non-negative and the call is
rejected with InsufficientFunds, state untouched. -/
theorem nonneg_invariant_witness :
    allNonneg (transfer demoState "alice" "bob" 2000 none 0 true).2.accounts = true ∧
    transfer demoState "alice" "bob" 2000 none 0 true =
      (.failure .InsufficientFunds, demoState) := by
  have h := nonneg_invariant demoState "alice" "bob" 2000 none 0 true "carol" (1/2) 5
    (by decide)
  exact ⟨h.1, h.2.2.2.2 1000 (by decide) (by decide) (by decide) (by decide)⟩

/-- Claim C9: the transaction log only ever receives records with status
completed: transfer preserves the all-completed invariant, signup does not
touch the log, a successful transfer appends exactly one record and its
status is completed, and a failed transfer leaves the log as it was. -/
theorem txLog_only_completed
    (st : BankState) (f t : String) (a : Money) (d : Option String) (now : Nat) (ok : Bool)
    (uid : String) (r : Money) (txn : Txn) (st' : BankState) (e : TransferError)
    (hall : allCompleted st.txns = true) :
    allCompleted (transfer st f t a d now ok).2.txns = true ∧
    (signup st uid r).txns = st.txns ∧
    (transfer st f t a d now ok = (.success txn, st') →
      txn.status = .completed ∧ st'.txns = st.txns ++ [txn]) ∧
    (transfer st f t a d now ok = (.failure e, st') → st'.txns = st.txns) := by
  refine ⟨?_, rfl, ?_, ?_⟩
  · rcases hres : transfer st f t a d now ok with ⟨res, st2⟩
    cases res with
    | failure e2 =>
      rw [transfer_failure_state hres]
      exact hall
    | success txn2 =>
      obtain ⟨-, -, -, bf, bt, -, -, -, -, htxn, hst⟩ := transfer_success_elim hres
      rw [hst]
      show allCompleted (st.txns ++ [txn2]) = true
      rw [allCompleted_iff]
      intro u hu
      rcases List.mem_append.mp hu with h | h
      · exact (allCompleted_iff _).mp hall u h
      · rcases List.mem_singleton.mp h with rfl
        rw [htxn]
  · intro hsucc
    obtain ⟨-, -, -, bf, bt, -, -, -, -, htxn, hst⟩ := transfer_success_elim hsucc
    constructor
    · rw [htxn]
    · rw [hst]
  · intro hfail
    rw [transfer_failure_state hfail]

/-- Concrete run of txLog_only_completed: the successful 300 transfer on
demoState appends one completed record and nothing else. -/
theorem txLog_only_completed_witness :
    allCompleted (transfer demoState "alice" "bob" 300 none 7 true).2.txns = true ∧
    (transfer demoState "alice" "bob" 300 none 7 true =
        (.success { fromUserId := "alice", toUserId := "bob", amount := 300,
                    description := "", status := .completed, createdAt := 7 },
          { accounts := [("alice", 700), ("bob", 800)], userIds := ["alice", "bob"],
            txns := [{ fromUserId := "alice", toUserId := "bob", amount := 300,
                       description := "", status := .completed, createdAt := 7 }] }) →
      TxStatus.completed = TxStatus.completed ∧
      [{ fromUserId := "alice", toUserId := "bob", amount := 300, description := "",
         status := TxStatus.completed, createdAt := 7 }] =
        demoState.txns ++ [{ fromUserId := "alice", toUserId := "bob", amount := 300,
                             description := "", status := .completed, createdAt := 7 }]) := by
  have h := txLog_only_completed demoState "alice" "bob" 300 none 7 true "carol" (1/2)
    { fromUserId := "alice", toUserId := "bob", amount := 300, description := "",
      status := .completed, createdAt := 7 }
    { accounts := [("alice", 700), ("bob", 800)], userIds := ["alice", "bob"],
      txns := [{ fromUserId := "alice", toUserId := "bob", amount := 300,
                 description := "", status := .completed, createdAt := 7 }] }
    .TransferFailed (by decide)
  exact ⟨h.1, h.2.2.1⟩

/-- Claim C10: the account created at signup is seeded with
1000 + r * 9000 where r is the Math.random draw in [0,1): the seed lies in
the half-open interval [1000, 10000), is strictly positive, and at r = 1/7
it is not a whole number of minor units (one hundredth), so the seed is in
general not a whole number of cents. -/
theorem signup_seed_balance
    (st : BankState) (uid : String) (r : Money) (hr0 : 0 ≤ r) (hr1 : r < 1) :
    (signup st uid r).accounts = st.accounts ++ [(uid, initialBalance r)] ∧
    initialBalance r = 1000 + r * 9000 ∧
    1000 ≤ initialBalance r ∧ initialBalance r < 10000 ∧ 0 < initialBalance r ∧
    (∀ n : ℤ, initialBalance (1 / 7) * 100 ≠ (n : Money)) := by
  refine ⟨rfl, rfl, ?_, ?_, ?_, ?_⟩
  · unfold initialBalance
    nlinarith
  · unfold initialBalance
    nlinarith
  · unfold initialBalance
    nlinarith
  · intro n h
    have h1 : (1600000 : ℚ) / 7 = (n : ℚ) := by
      rw [← h]
      norm_num [initialBalance]
    have h2 : (1600000 : ℚ) = 7 * (n : ℚ) := by
      field_simp at h1
      linarith
    have h3 : (1600000 : ℤ) = 7 * n := by exact_mod_cast h2
    omega

/-- Concrete run of signup_seed_balance at r = 1/2: the new account holds
5500, inside [1000, 10000). -/
theorem signup_seed_balance_witness :
    (signup demoState "carol" (1 / 2)).accounts =
      demoState.accounts ++ [("carol", initialBalance (1 / 2))] ∧
    1000 ≤ initialBalance (1 / 2) ∧ initialBalance (1 / 2) < 10000 ∧
    0 < initialBalance (1 / 2) := by
  have h := signup_seed_balance demoState "carol" (1 / 2) (by norm_num) (by norm_num)
  exact ⟨h.1, h.2.2.1, h.2.2.2.1, h.2.2.2.2.1⟩

/-- The Nat ceiling of T / L agrees with the rounded-up integer division
(T + L - 1) / L whenever L is at least 1. -/
theorem nat_ceilDiv_eq (T L : Nat) (hL : 1 ≤ L) :
    ⌈(T : ℚ) / (L : ℚ)⌉₊ = (T + L - 1) / L := by
  have hL0 : (0 : ℚ) < (L : ℚ) := by exact_mod_cast hL
  rcases Nat.eq_zero_or_pos T with rfl | hT
  · rw [Nat.cast_zero, zero_div, Nat.ceil_zero]
    symm
    apply Nat.div_eq_of_lt
    omega
  · have hmod := Nat.div_add_mod (T + L - 1) L
    have hrlt : (T + L - 1) % L < L := Nat.mod_lt _ (by omega)
    have key1 : T ≤ ((T + L - 1) / L) * L := by
      rw [mul_comm]
      generalize hx : L * ((T + L - 1) / L) = x at hmod ⊢
      generalize hy : (T + L - 1) % L = y at hmod hrlt
      omega
    have key2 : (((T + L - 1) / L) - 1) * L < T := by
      rw [Nat.sub_mul, one_mul, mul_comm ((T + L - 1) / L) L]
      generalize hx : L * ((T + L - 1) / L) = x at hmod ⊢
      generalize hy : (T + L - 1) % L = y at hmod hrlt
      omega
    apply le_antisymm
    · rw [Nat.ceil_le, div_le_iff₀ hL0]
      exact_mod_cast key1
    · have h2 : (((T + L - 1) / L) - 1) < ⌈(T : ℚ) / (L : ℚ)⌉₊ := by
        rw [Nat.lt_ceil, lt_div_iff₀ hL0]
        exact_mod_cast key2
      omega

/-- The sorted match set of the history query really is ordered newest
first. -/
theorem sortedHistory_pairwise (st : BankState) (uid : String) :
    (sortedHistory st uid).Pairwise fun x y => y.createdAt ≤ x.createdAt := by
  unfold sortedHistory newestFirst
  refine (List.sorted_mergeSort ?_ ?_ (st.txns.filter (txInvolves uid))).imp ?_
  · intro a b c hab hbc
    simp only [decide_eq_true_eq] at *
    omega
  · intro a b
    rcases Nat.le_total b.createdAt a.createdAt with h | h <;> simp [h]
  · intro a b h
    simpa using h

/-- Claim C7 counterexample: the balance field of accountSchema is
declared with the JavaScript Number type, an IEEE-754 binary double, so it
is not stored as integer minor-units or a fixed-point decimal. -/
theorem balance_storage_counterexample :
    accountSchemaBalanceType = .binaryDouble ∧
    accountSchemaBalanceType.isExactMonetary = false :=
  ⟨rfl, rfl⟩

/-- Claim C7 amended: the balance is stored as a JavaScript Number, a
binary floating-point double, not as integer minor-units or a fixed-point
decimal; accordingly fractional, non-cent balances occur — the signup seed
at r = 1/7 is not a whole number of minor units. -/
theorem balance_storage_amended :
    accountSchemaBalanceType = .binaryDouble ∧
    accountSchemaBalanceType.isExactMonetary = false ∧
    (∀ n : ℤ, initialBalance (1 / 7) * 100 ≠ (n : Money)) := by
  refine ⟨rfl, rfl, ?_⟩
  intro n h
  have h1 : (1600000 : ℚ) / 7 = (n : ℚ) := by
    rw [← h]
    norm_num [initialBalance]
  have h2 : (1600000 : ℚ) = 7 * (n : ℚ) := by
    field_simp at h1
    linarith
  have h3 : (1600000 : ℤ) = 7 * n := by exact_mod_cast h2
  omega

/-- Claim C8: for every account and every page and pageSize (at least 1),
the history query returns only records involving the account, ordered
newest first, skipping (page - 1) * pageSize records of the sorted match
set and returning at most pageSize of them; the reported total is the
number of all matching records and the reported page count is the ceiling
of total / pageSize, which for positive pageSize is
(total + pageSize - 1) / pageSize. -/
theorem transactions_pagination
    (st : BankState) (uid : String) (page limit : Nat) (hlim : 1 ≤ limit) :
    (∀ u ∈ (getTransactions st uid page limit).transactions, txInvolves uid u = true) ∧
    (getTransactions st uid page limit).transactions.Pairwise
      (fun x y => y.createdAt ≤ x.createdAt) ∧
    (getTransactions st uid page limit).transactions.length ≤ limit ∧
    (∀ i, i < (getTransactions st uid page limit).transactions.length →
      (getTransactions st uid page limit).transactions[i]? =
        (sortedHistory st uid)[(page - 1) * limit + i]?) ∧
    (getTransactions st uid page limit).total =
      (st.txns.filter (txInvolves uid)).length ∧
    (sortedHistory st uid).length = (getTransactions st uid page limit).total ∧
    (getTransactions st uid page limit).pages =
      ((getTransactions st uid page limit).total + limit - 1) / limit := by
  have hperm := List.mergeSort_perm (st.txns.filter (txInvolves uid))
    (fun a b => decide (b.createdAt ≤ a.createdAt))
  refine ⟨?_, ?_, ?_, ?_, rfl, ?_, ?_⟩
  · intro u hu
    have h1 : u ∈ sortedHistory st uid :=
      List.mem_of_mem_drop (List.mem_of_mem_take hu)
    unfold sortedHistory newestFirst at h1
    exact (List.mem_filter.mp (hperm.mem_iff.mp h1)).2
  · exact List.Pairwise.sublist
      ((List.take_sublist _ _).trans (List.drop_sublist _ _))
      (sortedHistory_pairwise st uid)
  · show (((sortedHistory st uid).drop ((page - 1) * limit)).take limit).length ≤ limit
    rw [List.length_take]
    exact min_le_left _ _
  · intro i hi
    have hilim : i < limit := by
      have h' : i < limit ⊓ ((sortedHistory st uid).drop ((page - 1) * limit)).length := by
        simpa [getTransactions, List.length_take] using hi
      exact lt_of_lt_of_le h' (min_le_left _ _)
    show (((sortedHistory st uid).drop ((page - 1) * limit)).take limit)[i]? =
      (sortedHistory st uid)[(page - 1) * limit + i]?
    rw [List.getElem?_take, if_pos hilim, List.getElem?_drop]
  · show (sortedHistory st uid).length = (st.txns.filter (txInvolves uid)).length
    unfold sortedHistory newestFirst
    exact List.length_mergeSort _
  · show ⌈((st.txns.filter (txInvolves uid)).length : ℚ) / (limit : ℚ)⌉₊ =
      ((st.txns.filter (txInvolves uid)).length + limit - 1) / limit
    exact nat_ceilDiv_eq _ _ hlim

/-- Concrete run of transactions_pagination on txState: alice is involved
in two of the three records; page 1 with pageSize 10 reports total 2,
one page, and at most 10 records. -/
theorem transactions_pagination_witness :
    (getTransactions txState "alice" 1 10).total =
      (txState.txns.filter (txInvolves "alice")).length ∧
    (getTransactions txState "alice" 1 10).pages =
      ((getTransactions txState "alice" 1 10).total + 10 - 1) / 10 ∧
    (getTransactions txState "alice" 1 10).transactions.length ≤ 10 := by
  have h := transactions_pagination txState "alice" 1 10 (by norm_num)
  exact ⟨h.2.2.2.2.1, h.2.2.2.2.2.2, h.2.2.1⟩
